import Mathlib

/-!
Shallow embedding of the whisper-transcription repository
(src/audio_transcriber.py, src/project_structure.py, src/youtube_downloader.py)
and proofs about its specification.

Time values (Python floats) are modelled as rationals; this is exact for all
inputs appearing in the claims and matches Python semantics of `//` and `%`
on floats (both are exact operations on the represented real values).
-/

/-- One timed utterance, as produced by the transcription collaborator.
The Python dictionary key `end` is rendered as `stop` (`end` is a Lean
keyword); `start` and `text` keep their source names. -/
structure Segment where
  start : ℚ
  stop : ℚ
  text : String
deriving Repr, DecidableEq

/-- Python's `a % b` on floats for `b > 0`: `a - b * ⌊a / b⌋`. -/
def pymod (a b : ℚ) : ℚ := a - b * (a / b).floor

/-- Round to the nearest integer, ties to even: the rounding applied by
Python's fixed-precision float formatting (here used at 3 decimal digits,
on the exact value). -/
def rhe (x : ℚ) : ℤ :=
  if x - x.floor < 1/2 then x.floor
  else if 1/2 < x - x.floor then x.floor + 1
  else if x.floor % 2 = 0 then x.floor else x.floor + 1

/-- Left-pad a string with `'0'` up to width `w`: the padding performed by
Python's `{:0Nd}` / `{:0N.3f}` format specifiers. -/
def zpad (w : Nat) (s : String) : String :=
  String.mk (List.replicate (w - s.length) '0') ++ s

/-- Decimal digits of a natural number, accumulator and fuel based
(fuel keeps the recursion structural so that terms reduce in the kernel). -/
def digitsAux : Nat → Nat → List Char → List Char
  | _, 0, acc => acc
  | 0, _ + 1, acc => acc
  | fuel + 1, m + 1, acc =>
    digitsAux fuel ((m + 1) / 10) (Nat.digitChar ((m + 1) % 10) :: acc)

/-- Decimal rendering of a natural number, as Python's `str`/`{:d}` renders
a non-negative integer. -/
def pyIntDigits (n : Nat) : String :=
  if n = 0 then "0" else String.mk (digitsAux n n [])

/-- Python's `f"{x:06.3f}"` for `0 ≤ x < 100`: round `x` to 3 decimals
(ties to even) and render as `SS.mmm`, zero-padded to width 6. -/
def pyFmt063 (x : ℚ) : String :=
  let m : ℤ := rhe (x * 1000)
  zpad 2 (pyIntDigits (m / 1000).toNat) ++ "." ++ zpad 3 (pyIntDigits (m % 1000).toNat)

/-- Python's `str.replace(".", ",")`: with single-character pattern and
replacement this is a character-wise map. -/
def replaceDot (s : String) : String :=
  String.mk (s.data.map (fun c => if c = '.' then ',' else c))

/-- `AudioTranscriber._format_timestamp` (src/audio_transcriber.py:175-184):
`hours = int(seconds // 3600)`, `minutes = int((seconds % 3600) // 60)`,
`secs = seconds % 60`, rendered `f"{hours:02d}:{minutes:02d}:{secs:06.3f}"`,
with `.` replaced by `,` in SRT style. -/
def format_timestamp (seconds : ℚ) (srt : Bool) : String :=
  let hours : ℤ := (seconds / 3600).floor
  let minutes : ℤ := ((pymod seconds 3600) / 60).floor
  let secs : ℚ := pymod seconds 60
  let base := zpad 2 (pyIntDigits hours.toNat) ++ ":" ++
    zpad 2 (pyIntDigits minutes.toNat) ++ ":" ++ pyFmt063 secs
  if srt then replaceDot base else base

/-- Python's `sep.join(items)`: concatenation with `sep` between consecutive
items, nothing before the first or after the last. -/
def sepJoin (sep : String) : List String → String
  | [] => ""
  | [x] => x
  | x :: y :: xs => x ++ sep ++ sepJoin sep (y :: xs)

/-- The cue strings accumulated by the loop of
`AudioTranscriber._generate_srt` (src/audio_transcriber.py:155-163), with
`i` the 1-based counter of `enumerate(segments, 1)`. -/
def srtEntries : Nat → List Segment → List String
  | _, [] => []
  | i, seg :: rest =>
    (pyIntDigits i ++ "\n" ++ format_timestamp seg.start true ++ " --> " ++
      format_timestamp seg.stop true ++ "\n" ++ seg.text.trim ++ "\n") ::
    srtEntries (i + 1) rest

/-- `AudioTranscriber._generate_srt` (src/audio_transcriber.py:155-163):
`"\n".join` of the accumulated cue strings. -/
def generate_srt (segments : List Segment) : String :=
  sepJoin "\n" (srtEntries 1 segments)

/-- `AudioTranscriber._generate_vtt` (src/audio_transcriber.py:165-173):
`"\n".join` of `["WEBVTT\n"]` followed by one cue string per segment. -/
def generate_vtt (segments : List Segment) : String :=
  sepJoin "\n" ("WEBVTT\n" :: segments.map (fun seg =>
    format_timestamp seg.start false ++ " --> " ++
    format_timestamp seg.stop false ++ "\n" ++ seg.text.trim ++ "\n"))

/-- Python runtime errors surfaced by the embedded code paths. -/
inductive PyError where
  | fileNotFound (msg : String)
  | unboundLocal (name : String)
deriving Repr, DecidableEq

/-- The filesystem state touched by the Project Store: a set of directories
(in creation order) and a set of written file paths (in write order; file
contents are not modelled, the claims are about which paths get written). -/
structure FS where
  dirs : List String
  files : List String
deriving Repr, DecidableEq

/-- Python's `Path.mkdir(exist_ok=True)`: create the directory if absent,
succeed silently if it already exists. -/
def mkdirOk (fs : FS) (d : String) : FS :=
  { fs with dirs := if d ∈ fs.dirs then fs.dirs else fs.dirs ++ [d] }

/-- `open(path, "w")` followed by a write: the path now holds a file
(recorded once; re-writes overwrite in place). -/
def writeFileAt (fs : FS) (p : String) : FS :=
  { fs with files := if p ∈ fs.files then fs.files else fs.files ++ [p] }

/-- Python's `d[k] = v` on a dict, modelled on an association list in
insertion order: overwrite the value if the key is present, else append. -/
def pyDictSet (d : List (String × String)) (k v : String) : List (String × String) :=
  if d.any (fun p => p.1 = k) then d.map (fun p => if p.1 = k then (k, v) else p)
  else d ++ [(k, v)]

/-- `ProjectStructure.create_project` (src/project_structure.py:22-64).
`fs` is the filesystem, `base_dir` the manager's base directory, `now` the
value of `datetime.now().isoformat()`.  Metadata values are modelled as
strings.  Returns the filesystem, the metadata dict after the function's
in-place mutations (`metadata["created_at"]`, `metadata["project_type"]`),
and the three returned paths (project, src_audio, transcription).
`if metadata:` skips the metadata block exactly when the dict is empty. -/
def create_project (fs : FS) (base_dir : String) (project_name : String)
    (project_type : String) (metadata : List (String × String)) (now : String) :
    FS × List (String × String) × (String × String × String) :=
  let folder_name :=
    if project_type = "youtube" then "youtube_" ++ project_name
    else "local_" ++ project_name
  let project_dir := base_dir ++ "/" ++ folder_name
  let fs1 := mkdirOk fs project_dir
  let src_audio_dir := project_dir ++ "/src_audio"
  let transcription_dir := project_dir ++ "/transcription"
  let fs2 := mkdirOk fs1 src_audio_dir
  let fs3 := mkdirOk fs2 transcription_dir
  if metadata = [] then
    (fs3, metadata, (project_dir, src_audio_dir, transcription_dir))
  else
    let md1 := pyDictSet metadata "created_at" now
    let md2 := pyDictSet md1 "project_type" project_type
    let fs4 := writeFileAt fs3 (project_dir ++ "/metadata.json")
    (fs4, md2, (project_dir, src_audio_dir, transcription_dir))

/-- Loop body state of `save_transcription_outputs`
(src/project_structure.py:124-143): `file_path` is the Python local of the
same name (unset before the first recognized format), `saved_files` the
accumulated result dict, `written` the file paths written so far.
A recognized format binds `file_path` and writes the file; any other format
leaves `file_path` as it was; the trailing
`saved_files[format_type] = str(file_path)` runs for every entry and raises
`UnboundLocalError` when `file_path` has never been bound. -/
def saveOutputsLoop (transcription_dir base_name : String) :
    Option String → List (String × String) → List String →
    List (String × String) → Except PyError (List (String × String) × List String)
  | _, saved_files, written, [] => .ok (saved_files, written)
  | file_path, saved_files, written, (format_type, _) :: rest =>
    let newPath : Option String :=
      if format_type = "text" then some (transcription_dir ++ "/" ++ base_name ++ ".txt")
      else if format_type = "json" then some (transcription_dir ++ "/" ++ base_name ++ ".json")
      else if format_type = "srt" then some (transcription_dir ++ "/" ++ base_name ++ ".srt")
      else if format_type = "vtt" then some (transcription_dir ++ "/" ++ base_name ++ ".vtt")
      else none
    match newPath with
    | some p =>
      saveOutputsLoop transcription_dir base_name (some p)
        (saved_files ++ [(format_type, p)]) (written ++ [p]) rest
    | none =>
      match file_path with
      | some p =>
        saveOutputsLoop transcription_dir base_name (some p)
          (saved_files ++ [(format_type, p)]) written rest
      | none => .error (.unboundLocal "file_path")

/-- `ProjectStructure.save_transcription_outputs`
(src/project_structure.py:108-145): iterate over the `outputs` dict in
insertion order (dicts are modelled as association lists), writing each
recognized format to `{transcription_dir}/{base_name}.{ext}` and recording
`saved_files[format_type] = str(file_path)` for every entry. -/
def save_transcription_outputs (transcription_dir : String)
    (outputs : List (String × String)) (base_name : String) :
    Except PyError (List (String × String) × List String) :=
  saveOutputsLoop transcription_dir base_name none [] [] outputs

/-- The extension table for recognized format tags, as the filesystem
layout in the spec records it: `text` is written as `.txt`, the other
recognized tags keep their own name as extension. -/
def extOf (fmt : String) : Option String :=
  if fmt = "text" then some "txt"
  else if fmt = "json" then some "json"
  else if fmt = "srt" then some "srt"
  else if fmt = "vtt" then some "vtt"
  else none

/-- The result dictionary returned by `whisper`'s `model.transcribe`
(the external transcription collaborator): full text, optional detected
language, duration and the ordered segments. -/
structure TResult where
  text : String
  language : Option String
  duration : ℚ
  segments : List Segment
deriving Repr, DecidableEq

/-- Stand-in for the `json.dump` serialization of the whole result
dictionary; file contents are not the subject of any claim, only the
writing and its path. -/
def jsonOfResult (r : TResult) : String := reprStr r

/-- Observable side effects of `transcribe_audio`, in program order. -/
inductive Event where
  | transcribeCall (path : String) (language : Option String)
  | fileWrite (path : String)
deriving Repr, DecidableEq

/-- `os.path.exists` over the modelled filesystem. -/
def pathExists (fs : FS) (p : String) : Bool :=
  fs.files.contains p || fs.dirs.contains p

/-- `PurePath.name` for POSIX paths without a trailing slash: the final
path component. -/
def pyName (p : String) : String := ((p.splitOn "/").getLast?).getD ""

/-- `PurePath.stem`: the final component without its last suffix; a suffix
needs a dot that is neither the first nor the last character of the name. -/
def pyStem (p : String) : String :=
  let name := pyName p
  let cs := name.data
  match cs.reverse.findIdx? (fun c => c = '.') with
  | none => name
  | some k =>
    let i := cs.length - 1 - k
    if 0 < i ∧ i < cs.length - 1 then String.mk (cs.take i) else name

/-- Value returned by `AudioTranscriber.transcribe_audio`
(src/audio_transcriber.py:128-134). -/
structure TranscribeReturn where
  text : String
  language : String
  duration : ℚ
  output_files : List (String × String)
  segments : List Segment
deriving Repr, DecidableEq

/-- `AudioTranscriber.transcribe_audio` (src/audio_transcriber.py:31-134).
`fs` is the filesystem, `model_result` what the collaborator call
`self.model.transcribe(audio_path, **options)` would return, `now` the
value of `datetime.now().strftime(...)` used by the old-structure branch,
and `project_dirs` the optional project paths
(project_dir, src_audio_dir, transcription_dir).  Returns the list of side
effects in program order (collaborator call, file writes) together with
the returned dictionary or the raised error.  The guard
`if not os.path.exists(audio_path)` at lines 45-46 precedes everything. -/
def transcribe_audio (use_project_structure : Bool) (fs : FS) (model_result : TResult)
    (audio_path : String) (language : Option String) (output_format : String)
    (project_dirs : Option (String × String × String)) (now : String) :
    List Event × Except PyError TranscribeReturn :=
  if ¬ pathExists fs audio_path then
    ([], .error (.fileNotFound ("Audio file not found: " ++ audio_path)))
  else
    let ret (outputs : List (String × String)) : TranscribeReturn :=
      { text := model_result.text
        language := model_result.language.getD "unknown"
        duration := model_result.duration
        output_files := outputs
        segments := model_result.segments }
    match use_project_structure, project_dirs with
    | true, some (project_dir, _, transcription_dir) =>
      let ev0 := [Event.transcribeCall audio_path language,
                  Event.fileWrite (project_dir ++ "/transcription/settings.json")]
      let output_contents :=
        (if output_format = "text" ∨ output_format = "all"
          then [("text", model_result.text)] else []) ++
        (if output_format = "json" ∨ output_format = "all"
          then [("json", jsonOfResult model_result)] else []) ++
        (if output_format = "srt" ∨ output_format = "all"
          then [("srt", generate_srt model_result.segments)] else []) ++
        (if output_format = "vtt" ∨ output_format = "all"
          then [("vtt", generate_vtt model_result.segments)] else [])
      match save_transcription_outputs transcription_dir output_contents "transcript" with
      | .ok (saved_files, written) =>
        (ev0 ++ written.map Event.fileWrite, .ok (ret saved_files))
      | .error e => (ev0, .error e)
    | _, _ =>
      let output_base := "transcriptions/" ++ pyStem audio_path ++ "_" ++ now
      let w1 :=
        if output_format = "text" ∨ output_format = "all"
          then [("text", output_base ++ ".txt")] else []
      let w2 :=
        if output_format = "json" ∨ output_format = "all"
          then [("json", output_base ++ ".json")] else []
      let w3 :=
        if output_format = "srt" ∨ output_format = "all"
          then [("srt", output_base ++ ".srt")] else []
      let w4 :=
        if output_format = "vtt" ∨ output_format = "all"
          then [("vtt", output_base ++ ".vtt")] else []
      let outputs := w1 ++ w2 ++ w3 ++ w4
      (Event.transcribeCall audio_path language :: outputs.map (fun p => Event.fileWrite p.2),
       .ok (ret outputs))

/-- A character of the class `[0-9A-Za-z_-]` in the video-id patterns of
`YouTubeDownloader._extract_video_id` (src/youtube_downloader.py:139-145). -/
def isIdChar (c : Char) : Bool := c.isAlphanum || c = '_' || c = '-'

/-- `([0-9A-Za-z_-]{11})` at the current position: exactly 11 characters of
the class must follow; the capture is those 11 characters. -/
def grab11 (rest : List Char) : Option (List Char) :=
  let g := rest.take 11
  if g.length = 11 && g.all isIdChar then some g else none

/-- The first pattern `(?:v=|\/)([0-9A-Za-z_-]{11}).*` tried at one start
position (the trailing `.*` always matches, the two alternatives start with
distinct characters). -/
def pat1At : List Char → Option (List Char)
  | 'v' :: '=' :: rest => grab11 rest
  | '/' :: rest => grab11 rest
  | _ => none

/-- `re.search` with the first pattern: try each start position from the
left, returning the capture of the leftmost match. -/
def searchPat1 : List Char → Option (List Char)
  | [] => none
  | c :: cs =>
    match pat1At (c :: cs) with
    | some g => some g
    | none => searchPat1 cs

/-- A pattern of the shape `(?:literal)([0-9A-Za-z_-]{11})` tried at one
start position. -/
def litMatchAt (lit : List Char) (cs : List Char) : Option (List Char) :=
  if cs.take lit.length = lit then grab11 (cs.drop lit.length) else none

/-- `re.search` with one literal-prefix pattern. -/
def searchLit (lit : List Char) : List Char → Option (List Char)
  | [] => none
  | c :: cs =>
    match litMatchAt lit (c :: cs) with
    | some g => some g
    | none => searchLit lit cs

/-- `YouTubeDownloader._extract_video_id`
(src/youtube_downloader.py:137-152): try the five patterns in order,
returning the first capture found. -/
def extract_video_id (url : String) : Option String :=
  match searchPat1 url.data with
  | some g => some (String.mk g)
  | none =>
  match searchLit "embed/".data url.data with
  | some g => some (String.mk g)
  | none =>
  match searchLit "watch?v=".data url.data with
  | some g => some (String.mk g)
  | none =>
  match searchLit "youtu.be/".data url.data with
  | some g => some (String.mk g)
  | none =>
  match searchLit "live/".data url.data with
  | some g => some (String.mk g)
  | none => none

/-- The id-extraction and validation step of
`YouTubeDownloader.download_audio` (src/youtube_downloader.py:37-39): the
`ValueError` branch fires when `_extract_video_id` returns a falsy value
(`None` or the empty string); otherwise the id is used for the download
(the download collaborator itself is external and not modelled). -/
def download_audio_check (url : String) : Except String String :=
  match extract_video_id url with
  | none => .error ("Invalid YouTube URL: " ++ url)
  | some vid =>
    if vid = "" then .error ("Invalid YouTube URL: " ++ url)
    else .ok vid

example : format_timestamp 0 false = "00:00:00.000" := by with_unfolding_all rfl
example : format_timestamp (3/2) false = "00:00:01.500" := by with_unfolding_all rfl
example : format_timestamp (13/4) false = "00:00:03.250" := by with_unfolding_all rfl
example : format_timestamp (7451/2) true = "01:02:05,500" := by with_unfolding_all rfl
example : generate_vtt [⟨0, 3/2, "hello "⟩, ⟨3/2, 13/4, "world"⟩] =
    "WEBVTT\n\n00:00:00.000 --> 00:00:01.500\nhello\n\n00:00:01.500 --> 00:00:03.250\nworld\n" := by
  with_unfolding_all rfl
example : save_transcription_outputs "transcription" [("xml", "x")] "transcript" =
    .error (.unboundLocal "file_path") := by with_unfolding_all rfl
example : save_transcription_outputs "transcription" [("text", "a"), ("xml", "x")] "transcript" =
    .ok ([("text", "transcription/transcript.txt"), ("xml", "transcription/transcript.txt")],
      ["transcription/transcript.txt"]) := by with_unfolding_all rfl
example : extract_video_id "https://example.com/abcdefghijk" = some "abcdefghijk" := by
  with_unfolding_all rfl
example : extract_video_id "https://www.youtube.com/watch?v=dQw4w9WgXcQ" = some "dQw4w9WgXcQ" := by
  with_unfolding_all rfl
example : extract_video_id "hello" = none := by with_unfolding_all rfl
example : pyStem "audio/foo.mp3" = "foo" := by with_unfolding_all rfl
example : pyStem "a.tar.gz" = "a.tar" := by with_unfolding_all rfl
example : pyStem ".bashrc" = ".bashrc" := by with_unfolding_all rfl

/-- Python's `d[k]` lookup on a dict modelled as an association list:
the value of the first (and in a dict, only) pair with the key. -/
def pyDictGet (d : List (String × String)) (k : String) : Option String :=
  (d.find? (fun p => p.1 = k)).map Prod.snd

/-! Helper lemmas. -/

lemma ratFloor_eq (q : ℚ) : (q.floor : ℤ) = ⌊q⌋ := by
  rw [Rat.floor_def' q, Rat.floor_def]

lemma sepJoin_cons (sep x : String) (l : List String) (h : l ≠ []) :
    sepJoin sep (x :: l) = x ++ sep ++ sepJoin sep l := by
  cases l with
  | nil => exact absurd rfl h
  | cons y ys => rfl

lemma newline_append : ("\n" : String) ++ "\n" = "\n\n" := rfl

lemma sepJoin_map_append_newline (l : List String) (h : l ≠ []) :
    sepJoin "\n" (l.map (fun b => b ++ "\n")) = sepJoin "\n\n" l ++ "\n" := by
  induction l with
  | nil => exact absurd rfl h
  | cons x xs ih =>
    cases xs with
    | nil => rfl
    | cons y t =>
      have ih' := ih (by simp)
      simp only [List.map_cons] at ih' ⊢
      rw [sepJoin_cons "\n" (x ++ "\n") _ (by simp), ih',
        sepJoin_cons "\n\n" x (y :: t) (by simp)]
      simp only [String.append_assoc]
      rw [← String.append_assoc ("\n" : String) "\n", newline_append]

lemma srtEntries_eq_enumFrom (segs : List Segment) : ∀ i : Nat,
    srtEntries i segs = ((List.enumFrom i segs).map (fun p =>
      pyIntDigits p.1 ++ "\n" ++ format_timestamp p.2.start true ++ " --> " ++
        format_timestamp p.2.stop true ++ "\n" ++ p.2.text.trim)).map (fun b => b ++ "\n") := by
  induction segs with
  | nil => intro i; rfl
  | cons seg rest ih =>
    intro i
    simp only [srtEntries, List.enumFrom_cons, List.map_cons]
    rw [ih (i + 1)]

/-! Claim theorems. -/

/-- C1 (counterexample): the claim's exact output string for the two-segment
input ends with a blank line after the last cue; `_generate_vtt` joins the
cue strings with `"\n"` and therefore ends with a single newline, so the
claimed string differs from the produced one. -/
theorem c1_counterexample :
    generate_vtt [⟨0, 3/2, "hello "⟩, ⟨3/2, 13/4, "world"⟩] ≠
      "WEBVTT\n\n00:00:00.000 --> 00:00:01.500\nhello\n\n00:00:01.500 --> 00:00:03.250\nworld\n\n" := by
  have h : generate_vtt [⟨0, 3/2, "hello "⟩, ⟨3/2, 13/4, "world"⟩] =
      "WEBVTT\n\n00:00:00.000 --> 00:00:01.500\nhello\n\n00:00:01.500 --> 00:00:03.250\nworld\n" := by
    with_unfolding_all rfl
  rw [h]
  decide

/-- C1 (amended): for the segment sequence
`[{start 0.0, end 1.5, text "hello "}, {start 1.5, end 3.25, text "world"}]`
the VTT generator returns exactly
`"WEBVTT\n\n00:00:00.000 --> 00:00:01.500\nhello\n\n00:00:01.500 --> 00:00:03.250\nworld\n"`,
byte-identical, with a single newline (no trailing blank line) after the
last cue. -/
theorem c1_generate_vtt_exact :
    generate_vtt [⟨0, 3/2, "hello "⟩, ⟨3/2, 13/4, "world"⟩] =
      "WEBVTT\n\n00:00:00.000 --> 00:00:01.500\nhello\n\n00:00:01.500 --> 00:00:03.250\nworld\n" := by
  with_unfolding_all rfl

/-- C4 (counterexample): on the empty segment sequence `_generate_vtt`
returns `"WEBVTT\n"`, which does not begin with `"WEBVTT\n\n"`, refuting
the claim's "every segment sequence (including the empty sequence)". -/
theorem c4_counterexample : ¬ ∃ rest, generate_vtt [] = "WEBVTT\n\n" ++ rest := by
  rintro ⟨rest, h⟩
  have h7 : (generate_vtt []).length = 7 := rfl
  rw [h, String.length_append] at h7
  have h8 : ("WEBVTT\n\n" : String).length = 8 := rfl
  omega

/-- C4 (amended): for every non-empty segment sequence the string returned
by `_generate_vtt` begins with `"WEBVTT\n\n"` and consists of that header
followed by the newline-separated cue strings, each holding only a
timestamp line and a trimmed text line (no cue index lines); for the empty
sequence the result is exactly `"WEBVTT\n"` (header, single newline, no
blank line). -/
theorem c4_generate_vtt_header (segs : List Segment) :
    (segs = [] → generate_vtt segs = "WEBVTT\n") ∧
    (segs ≠ [] → generate_vtt segs = "WEBVTT\n\n" ++ sepJoin "\n" (segs.map (fun seg =>
      format_timestamp seg.start false ++ " --> " ++ format_timestamp seg.stop false ++ "\n" ++
      seg.text.trim ++ "\n"))) := by
  constructor
  · intro h; subst h; rfl
  · intro h
    cases segs with
    | nil => exact absurd rfl h
    | cons a l =>
      show sepJoin "\n" ("WEBVTT\n" :: ((a :: l).map _)) = _
      rw [sepJoin_cons _ _ _ (by simp), String.append_assoc]
      rfl

/-- C4 (witness): the amended statement evaluated on the empty sequence and
on a concrete one-segment sequence. -/
theorem c4_witness :
    generate_vtt [] = "WEBVTT\n" ∧
    generate_vtt [⟨0, 3/2, "hello "⟩] = "WEBVTT\n\n" ++ sepJoin "\n"
      (([⟨0, 3/2, "hello "⟩] : List Segment).map (fun seg =>
        format_timestamp seg.start false ++ " --> " ++ format_timestamp seg.stop false ++ "\n" ++
        seg.text.trim ++ "\n")) :=
  ⟨(c4_generate_vtt_header []).1 rfl,
   (c4_generate_vtt_header [⟨0, 3/2, "hello "⟩]).2 (by simp)⟩

/-- C5: for every sequence of N segments `_generate_srt` produces the
blank-line-separated concatenation of exactly N cue blocks, one per segment
in input order; the block of the segment at 0-based position `p.1` carries
the 1-based index line `p.1 + 1` (so indices run 1,2,... regardless of the
segment data), then the `start --> end` SRT timestamp line, then the
trimmed text, and a final newline closes the last block. -/
theorem c5_generate_srt_blocks (segs : List Segment) :
    generate_srt segs =
      if segs = [] then ""
      else sepJoin "\n\n" ((List.enumFrom 1 segs).map (fun p =>
        pyIntDigits p.1 ++ "\n" ++ format_timestamp p.2.start true ++ " --> " ++
        format_timestamp p.2.stop true ++ "\n" ++ p.2.text.trim)) ++ "\n" := by
  cases segs with
  | nil => rfl
  | cons a l =>
    rw [generate_srt, srtEntries_eq_enumFrom,
      sepJoin_map_append_newline _ (by simp [List.enumFrom_cons]), if_neg (by simp)]

lemma saveOutputsLoop_recognized (dir base : String) (outs : List (String × String)) :
    ∀ (fp : Option String) (saved : List (String × String)) (written : List String),
    (∀ p ∈ outs, (extOf p.1).isSome) →
    saveOutputsLoop dir base fp saved written outs =
      .ok (saved ++ outs.map (fun p => (p.1, dir ++ "/" ++ base ++ "." ++ (extOf p.1).getD "")),
           written ++ outs.map (fun p => dir ++ "/" ++ base ++ "." ++ (extOf p.1).getD "")) := by
  induction outs with
  | nil => intro fp saved written _; simp [saveOutputsLoop]
  | cons p t ih =>
    intro fp saved written h
    obtain ⟨fmt, content⟩ := p
    have hfmt := h (fmt, content) (List.mem_cons_self _ _)
    have ht : ∀ q ∈ t, (extOf q.1).isSome := fun q hq => h q (List.mem_cons_of_mem _ hq)
    have hassoc : ∀ e : String, dir ++ "/" ++ base ++ "." ++ e = dir ++ "/" ++ base ++ ("." ++ e) :=
      fun e => String.append_assoc _ _ _
    by_cases h1 : fmt = "text"
    · subst h1
      have hstep : saveOutputsLoop dir base fp saved written (("text", content) :: t) =
          saveOutputsLoop dir base (some (dir ++ "/" ++ base ++ ".txt"))
            (saved ++ [("text", dir ++ "/" ++ base ++ ".txt")])
            (written ++ [dir ++ "/" ++ base ++ ".txt"]) t := rfl
      have hx : dir ++ "/" ++ base ++ "." ++ "txt" = dir ++ "/" ++ base ++ ".txt" := by
        rw [String.append_assoc]; rfl
      rw [hstep, ih _ _ _ ht]
      simp [extOf, hx, List.append_assoc]
    · by_cases h2 : fmt = "json"
      · subst h2
        have hstep : saveOutputsLoop dir base fp saved written (("json", content) :: t) =
            saveOutputsLoop dir base (some (dir ++ "/" ++ base ++ ".json"))
              (saved ++ [("json", dir ++ "/" ++ base ++ ".json")])
              (written ++ [dir ++ "/" ++ base ++ ".json"]) t := rfl
        have hx : dir ++ "/" ++ base ++ "." ++ "json" = dir ++ "/" ++ base ++ ".json" := by
          rw [String.append_assoc]; rfl
        rw [hstep, ih _ _ _ ht]
        simp [extOf, hx, List.append_assoc]
      · by_cases h3 : fmt = "srt"
        · subst h3
          have hstep : saveOutputsLoop dir base fp saved written (("srt", content) :: t) =
              saveOutputsLoop dir base (some (dir ++ "/" ++ base ++ ".srt"))
                (saved ++ [("srt", dir ++ "/" ++ base ++ ".srt")])
                (written ++ [dir ++ "/" ++ base ++ ".srt"]) t := rfl
          have hx : dir ++ "/" ++ base ++ "." ++ "srt" = dir ++ "/" ++ base ++ ".srt" := by
            rw [String.append_assoc]; rfl
          rw [hstep, ih _ _ _ ht]
          simp [extOf, hx, List.append_assoc]
        · by_cases h4 : fmt = "vtt"
          · subst h4
            have hstep : saveOutputsLoop dir base fp saved written (("vtt", content) :: t) =
                saveOutputsLoop dir base (some (dir ++ "/" ++ base ++ ".vtt"))
                  (saved ++ [("vtt", dir ++ "/" ++ base ++ ".vtt")])
                  (written ++ [dir ++ "/" ++ base ++ ".vtt"]) t := rfl
            have hx : dir ++ "/" ++ base ++ "." ++ "vtt" = dir ++ "/" ++ base ++ ".vtt" := by
              rw [String.append_assoc]; rfl
            rw [hstep, ih _ _ _ ht]
            simp [extOf, hx, List.append_assoc]
          · exfalso
            simp [extOf, h1, h2, h3, h4] at hfmt

/-- C2: the claim says unknown format tags are silently ignored (no error,
no file, not in the returned mapping).  The code instead executes
`saved_files[format_type] = str(file_path)` for every entry: with an
unknown tag first, `file_path` is unbound and the call raises
`UnboundLocalError`; with an unknown tag after a recognized one, the
unknown tag is mapped to the previous format's path.  This theorem
evaluates the embedded code on both failing inputs. -/
theorem c2_unknown_tag_bug :
    save_transcription_outputs "transcription" [("xml", "<a/>")] "transcript" =
      .error (.unboundLocal "file_path") ∧
    save_transcription_outputs "transcription" [("text", "a"), ("xml", "<a/>")] "transcript" =
      .ok ([("text", "transcription/transcript.txt"), ("xml", "transcription/transcript.txt")],
        ["transcription/transcript.txt"]) :=
  ⟨rfl, rfl⟩

/-- C3 (counterexample): for the recognized tag `text` the claim's rule
"ext equals the format tag, except json" predicts `transcript.text`; the
code writes `transcript.txt`. -/
theorem c3_counterexample :
    save_transcription_outputs "transcription" [("text", "hi")] "transcript" ≠
      .ok ([("text", "transcription/transcript.text")], ["transcription/transcript.text"]) := by
  intro h
  have h1 : save_transcription_outputs "transcription" [("text", "hi")] "transcript" =
      .ok ([("text", "transcription/transcript.txt")], ["transcription/transcript.txt"]) := rfl
  rw [h1] at h
  injection h with h2
  injection h2 with h3 h4
  exact absurd h3 (by decide)

/-- C3 (amended): for every outputs mapping whose tags are all recognized,
`save_transcription_outputs` writes each content to
`{transcription_dir}/{base_name}.{ext}` where ext equals the format tag
except that text is written as .txt, and returns the tag-to-path mapping;
in particular the produced layout contains transcript.txt,
transcript.json, transcript.srt and transcript.vtt in the transcription
subdirectory. -/
theorem c3_output_paths (dir base : String) (outs : List (String × String))
    (h : ∀ p ∈ outs, (extOf p.1).isSome) :
    save_transcription_outputs dir outs base =
      .ok (outs.map (fun p => (p.1, dir ++ "/" ++ base ++ "." ++ (extOf p.1).getD "")),
           outs.map (fun p => dir ++ "/" ++ base ++ "." ++ (extOf p.1).getD "")) := by
  rw [save_transcription_outputs, saveOutputsLoop_recognized dir base outs none [] [] h]
  simp

/-- C3 (witness): the amended statement evaluated on the four-format
outputs mapping of a full transcription in the standard layout. -/
theorem c3_witness :
    save_transcription_outputs "transcription" [("text", "a"), ("json", "b"), ("srt", "c"), ("vtt", "d")] "transcript" =
      .ok ([("text", "transcription/transcript.txt"), ("json", "transcription/transcript.json"),
            ("srt", "transcription/transcript.srt"), ("vtt", "transcription/transcript.vtt")],
           ["transcription/transcript.txt", "transcription/transcript.json",
            "transcription/transcript.srt", "transcription/transcript.vtt"]) :=
  c3_output_paths "transcription" "transcript"
    [("text", "a"), ("json", "b"), ("srt", "c"), ("vtt", "d")] (by decide)

/-! Lemmas about the directory and dict primitives. -/

lemma mkdirOk_files (fs : FS) (d : String) : (mkdirOk fs d).files = fs.files := rfl

lemma mkdirOk_mem (fs : FS) (d : String) : d ∈ (mkdirOk fs d).dirs := by
  unfold mkdirOk
  by_cases h : d ∈ fs.dirs <;> simp [h]

lemma mkdirOk_mem_mono (fs : FS) (d x : String) (h : x ∈ fs.dirs) :
    x ∈ (mkdirOk fs d).dirs := by
  unfold mkdirOk
  by_cases hd : d ∈ fs.dirs <;> simp [hd, h]

lemma mkdirOk_of_mem (fs : FS) (d : String) (h : d ∈ fs.dirs) : mkdirOk fs d = fs := by
  unfold mkdirOk
  simp [h]

lemma mkdirOk_count_other (fs : FS) (d x : String) (h : x ≠ d) :
    (mkdirOk fs d).dirs.count x = fs.dirs.count x := by
  unfold mkdirOk
  by_cases hd : d ∈ fs.dirs
  · simp [hd]
  · simp [hd, List.count_append, List.count_cons, List.count_nil, h]

lemma mkdirOk_count_self (fs : FS) (d : String) (h : d ∉ fs.dirs) :
    (mkdirOk fs d).dirs.count d = fs.dirs.count d + 1 := by
  unfold mkdirOk
  simp [h, List.count_append, List.count_cons, List.count_nil]

lemma find_map_set_ne (t : List (String × String)) (k v k' : String) (h : k' ≠ k) :
    (t.map (fun p => if p.1 = k then (k, v) else p)).find? (fun p => decide (p.1 = k')) =
      t.find? (fun p => decide (p.1 = k')) := by
  induction t with
  | nil => rfl
  | cons p t ih =>
    by_cases hp : p.1 = k
    · simp only [List.map_cons, if_pos hp, List.find?_cons]
      have h1 : decide ((k, v).1 = k') = false := by simp [Ne.symm h]
      have h2 : decide (p.1 = k') = false := by simp [hp, Ne.symm h]
      rw [h1, h2, ih]
    · simp only [List.map_cons, if_neg hp, List.find?_cons]
      cases hd : decide (p.1 = k')
      · rw [ih]
      · rfl

lemma find_map_set_self (t : List (String × String)) (k v : String)
    (h : t.any (fun p => decide (p.1 = k)) = true) :
    (t.map (fun p => if p.1 = k then (k, v) else p)).find? (fun p => decide (p.1 = k)) =
      some (k, v) := by
  induction t with
  | nil => simp at h
  | cons p t ih =>
    by_cases hp : p.1 = k
    · simp [List.find?_cons, if_pos hp]
    · have ht : t.any (fun p => decide (p.1 = k)) = true := by
        simpa [hp] using h
      simp only [List.map_cons, if_neg hp, List.find?_cons]
      have h2 : decide (p.1 = k) = false := by simp [hp]
      rw [h2, ih ht]

lemma find_append_single_ne (t : List (String × String)) (k v k' : String) (h : k' ≠ k) :
    (t ++ [(k, v)]).find? (fun p => decide (p.1 = k')) =
      t.find? (fun p => decide (p.1 = k')) := by
  rw [List.find?_append]
  have h1 : ([(k, v)] : List (String × String)).find? (fun p => decide (p.1 = k')) = none := by
    simp [List.find?_cons, Ne.symm h]
  rw [h1]
  cases t.find? (fun p => decide (p.1 = k')) <;> rfl

lemma find_append_single_self (t : List (String × String)) (k v : String)
    (h : t.any (fun p => decide (p.1 = k)) = false) :
    (t ++ [(k, v)]).find? (fun p => decide (p.1 = k)) = some (k, v) := by
  rw [List.find?_append]
  have h1 : t.find? (fun p => decide (p.1 = k)) = none := by
    rw [List.find?_eq_none]
    intro x hx
    simp only [List.any_eq_false] at h
    simpa using h x hx
  rw [h1]
  simp [List.find?_cons]

lemma pyDictGet_set_self (d : List (String × String)) (k v : String) :
    pyDictGet (pyDictSet d k v) k = some v := by
  unfold pyDictSet pyDictGet
  by_cases hd : d.any (fun p => decide (p.1 = k)) = true
  · rw [if_pos hd, find_map_set_self d k v hd]
    rfl
  · rw [if_neg hd, find_append_single_self d k v
      (by revert hd; cases d.any (fun p => decide (p.1 = k)) <;> simp)]
    rfl

lemma pyDictGet_set_ne (d : List (String × String)) (k v k' : String) (h : k' ≠ k) :
    pyDictGet (pyDictSet d k v) k' = pyDictGet d k' := by
  unfold pyDictSet pyDictGet
  by_cases hd : d.any (fun p => decide (p.1 = k)) = true
  · rw [if_pos hd, find_map_set_ne d k v k' h]
  · rw [if_neg hd, find_append_single_ne d k v k' h]

lemma pyDictSet_length_ge (d : List (String × String)) (k v : String) :
    d.length ≤ (pyDictSet d k v).length := by
  unfold pyDictSet
  by_cases hd : d.any (fun p => decide (p.1 = k)) = true <;> simp [hd]

lemma string_append_length_ne (p q : String) (h : q.length ≠ 0) : p ≠ p ++ q := by
  intro he
  have := congrArg String.length he
  rw [String.length_append] at this
  omega

/-- C7: calling `create_project("demo", "local", {})` twice with identical
arguments (modelled from any starting filesystem in which the project
folder does not yet exist) returns the same three resolved paths from both
calls, leaves the filesystem of the first call unchanged (create-if-absent,
never fail-if-exists: the embedded `mkdir(exist_ok=True)` is total), and
leaves exactly one directory named `local_demo` under the base directory,
with both the `src_audio` and `transcription` subdirectories present. -/
theorem c7_create_project_idempotent (fs : FS) (base now1 now2 : String)
    (h : ¬ base ++ "/" ++ "local_demo" ∈ fs.dirs) :
    (create_project (create_project fs base "demo" "local" [] now1).1
        base "demo" "local" [] now2).2.2 =
      (create_project fs base "demo" "local" [] now1).2.2 ∧
    (create_project (create_project fs base "demo" "local" [] now1).1
        base "demo" "local" [] now2).1 =
      (create_project fs base "demo" "local" [] now1).1 ∧
    ((create_project fs base "demo" "local" [] now1).1).dirs.count
      (base ++ "/" ++ "local_demo") = 1 ∧
    base ++ "/" ++ "local_demo" ++ "/src_audio" ∈
      ((create_project fs base "demo" "local" [] now1).1).dirs ∧
    base ++ "/" ++ "local_demo" ++ "/transcription" ∈
      ((create_project fs base "demo" "local" [] now1).1).dirs := by
  have hcp1 : create_project fs base "demo" "local" [] now1 =
      (mkdirOk (mkdirOk (mkdirOk fs (base ++ "/" ++ "local_demo"))
        (base ++ "/" ++ "local_demo" ++ "/src_audio"))
        (base ++ "/" ++ "local_demo" ++ "/transcription"), [],
       (base ++ "/" ++ "local_demo", base ++ "/" ++ "local_demo" ++ "/src_audio",
        base ++ "/" ++ "local_demo" ++ "/transcription")) := rfl
  have hps : base ++ "/" ++ "local_demo" ≠ base ++ "/" ++ "local_demo" ++ "/src_audio" :=
    string_append_length_ne _ _ (by decide)
  have hpt : base ++ "/" ++ "local_demo" ≠ base ++ "/" ++ "local_demo" ++ "/transcription" :=
    string_append_length_ne _ _ (by decide)
  have hmemp : base ++ "/" ++ "local_demo" ∈
      ((create_project fs base "demo" "local" [] now1).1).dirs := by
    rw [hcp1]
    exact mkdirOk_mem_mono _ _ _ (mkdirOk_mem_mono _ _ _ (mkdirOk_mem _ _))
  have hmems : base ++ "/" ++ "local_demo" ++ "/src_audio" ∈
      ((create_project fs base "demo" "local" [] now1).1).dirs := by
    rw [hcp1]
    exact mkdirOk_mem_mono _ _ _ (mkdirOk_mem _ _)
  have hmemt : base ++ "/" ++ "local_demo" ++ "/transcription" ∈
      ((create_project fs base "demo" "local" [] now1).1).dirs := by
    rw [hcp1]
    exact mkdirOk_mem _ _
  refine ⟨rfl, ?_, ?_, hmems, hmemt⟩
  · have hcp2 : create_project (create_project fs base "demo" "local" [] now1).1
        base "demo" "local" [] now2 =
        (mkdirOk (mkdirOk (mkdirOk (create_project fs base "demo" "local" [] now1).1
          (base ++ "/" ++ "local_demo"))
          (base ++ "/" ++ "local_demo" ++ "/src_audio"))
          (base ++ "/" ++ "local_demo" ++ "/transcription"), [],
         (base ++ "/" ++ "local_demo", base ++ "/" ++ "local_demo" ++ "/src_audio",
          base ++ "/" ++ "local_demo" ++ "/transcription")) := rfl
    have e1 := mkdirOk_of_mem _ _ hmemp
    rw [hcp2, e1]
    have e2 := mkdirOk_of_mem _ _ hmems
    rw [e2]
    exact mkdirOk_of_mem _ _ hmemt
  · rw [hcp1]
    rw [mkdirOk_count_other _ _ _ hpt, mkdirOk_count_other _ _ _ hps,
      mkdirOk_count_self _ _ h, List.count_eq_zero.mpr h]

/-- C7 (witness): the theorem evaluated from the empty filesystem with base
directory `audio_projects`. -/
theorem c7_witness :
    (create_project (create_project ⟨[], []⟩ "audio_projects" "demo" "local" [] "t1").1
        "audio_projects" "demo" "local" [] "t2").2.2 =
      (create_project ⟨[], []⟩ "audio_projects" "demo" "local" [] "t1").2.2 ∧
    (create_project (create_project ⟨[], []⟩ "audio_projects" "demo" "local" [] "t1").1
        "audio_projects" "demo" "local" [] "t2").1 =
      (create_project ⟨[], []⟩ "audio_projects" "demo" "local" [] "t1").1 ∧
    ((create_project ⟨[], []⟩ "audio_projects" "demo" "local" [] "t1").1).dirs.count
      ("audio_projects" ++ "/" ++ "local_demo") = 1 ∧
    "audio_projects" ++ "/" ++ "local_demo" ++ "/src_audio" ∈
      ((create_project ⟨[], []⟩ "audio_projects" "demo" "local" [] "t1").1).dirs ∧
    "audio_projects" ++ "/" ++ "local_demo" ++ "/transcription" ∈
      ((create_project ⟨[], []⟩ "audio_projects" "demo" "local" [] "t1").1).dirs :=
  c7_create_project_idempotent ⟨[], []⟩ "audio_projects" "t1" "t2" (by simp)

/-- C9: when a non-empty metadata mapping is supplied, `create_project`
mutates the caller's dict in place: after the call the dict equals the
original with `created_at` set to the timestamp and `project_type` set to
the project type (inserted, or overwritten if present), and whenever
`created_at` was not already a key the dict is not left unchanged. -/
theorem c9_create_project_metadata_mutation (fs : FS)
    (base name ptype now : String) (md : List (String × String)) (hmd : md ≠ []) :
    (create_project fs base name ptype md now).2.1 =
      pyDictSet (pyDictSet md "created_at" now) "project_type" ptype ∧
    pyDictGet (create_project fs base name ptype md now).2.1 "created_at" = some now ∧
    pyDictGet (create_project fs base name ptype md now).2.1 "project_type" = some ptype ∧
    ((∀ p ∈ md, p.1 ≠ "created_at") →
      (create_project fs base name ptype md now).2.1 ≠ md) := by
  have hproj : (create_project fs base name ptype md now).2.1 =
      pyDictSet (pyDictSet md "created_at" now) "project_type" ptype := by
    unfold create_project
    rw [if_neg hmd]
  refine ⟨hproj, ?_, ?_, ?_⟩
  · rw [hproj, pyDictGet_set_ne _ _ _ _ (by decide), pyDictGet_set_self]
  · rw [hproj, pyDictGet_set_self]
  · intro hfresh heq
    rw [hproj] at heq
    have hany : md.any (fun p => decide (p.1 = "created_at")) = false := by
      simp only [List.any_eq_false]
      intro p hp
      simpa using hfresh p hp
    have h1 : (pyDictSet md "created_at" now).length = md.length + 1 := by
      unfold pyDictSet
      rw [if_neg (by simp [hany])]
      simp
    have h2 := pyDictSet_length_ge (pyDictSet md "created_at" now) "project_type" ptype
    have h3 := congrArg List.length heq
    omega

/-- C9 (witness): the theorem evaluated on the metadata `{"title": "x"}`. -/
theorem c9_witness :
    (create_project ⟨[], []⟩ "b" "n" "local" [("title", "x")] "t").2.1 =
      pyDictSet (pyDictSet [("title", "x")] "created_at" "t") "project_type" "local" ∧
    pyDictGet (create_project ⟨[], []⟩ "b" "n" "local" [("title", "x")] "t").2.1
      "created_at" = some "t" ∧
    pyDictGet (create_project ⟨[], []⟩ "b" "n" "local" [("title", "x")] "t").2.1
      "project_type" = some "local" ∧
    ((∀ p ∈ [("title", "x")], p.1 ≠ "created_at") →
      (create_project ⟨[], []⟩ "b" "n" "local" [("title", "x")] "t").2.1 ≠
        [("title", "x")]) :=
  c9_create_project_metadata_mutation ⟨[], []⟩ "b" "n" "local" "t" [("title", "x")] (by simp)

/-- C8: for every call to `transcribe_audio` whose `audio_path` does not
exist on the modelled filesystem, the call fails with the
`FileNotFoundError` (NotFound) carrying `"Audio file not found: ..."`, and
the check comes first: the effect trace is empty, so no transcription
collaborator call is made and no settings or output file is written,
whatever the configuration, output format, project paths or collaborator
result. -/
theorem c8_transcribe_audio_notfound (use_project_structure : Bool) (fs : FS)
    (model_result : TResult) (audio_path : String) (language : Option String)
    (output_format : String) (project_dirs : Option (String × String × String))
    (now : String) (h : pathExists fs audio_path = false) :
    transcribe_audio use_project_structure fs model_result audio_path language
        output_format project_dirs now =
      ([], .error (.fileNotFound ("Audio file not found: " ++ audio_path))) := by
  unfold transcribe_audio
  rw [if_pos]
  rw [h]
  exact Bool.false_ne_true

/-- C8 (witness): the theorem evaluated on the empty filesystem and a
missing audio path, in the project-structure configuration with format
`all`. -/
theorem c8_witness :
    transcribe_audio true ⟨[], []⟩ ⟨"", none, 0, []⟩ "missing.mp3" none "all"
        (some ("p", "p/src_audio", "p/transcription")) "now" =
      ([], .error (.fileNotFound ("Audio file not found: " ++ "missing.mp3"))) :=
  c8_transcribe_audio_notfound true ⟨[], []⟩ ⟨"", none, 0, []⟩ "missing.mp3" none "all"
    (some ("p", "p/src_audio", "p/transcription")) "now" rfl

lemma searchPat1_skip (suffix : List Char) : ∀ pre : List Char,
    (∀ j, j < pre.length → pat1At ((pre ++ suffix).drop j) = none) →
    searchPat1 (pre ++ suffix) = searchPat1 suffix := by
  intro pre
  induction pre with
  | nil => intro _; rfl
  | cons c cs ih =>
    intro hfirst
    have h0 : pat1At (c :: (cs ++ suffix)) = none := by
      have := hfirst 0 (by simp)
      simpa using this
    show searchPat1 (c :: (cs ++ suffix)) = searchPat1 suffix
    rw [searchPat1, h0]
    exact ih (fun j hj => by
      have := hfirst (j + 1) (by simpa using Nat.succ_lt_succ hj)
      simpa using this)

lemma grab11_full (v rest : List Char) (hv : v.length = 11)
    (hid : v.all isIdChar = true) : grab11 (v ++ rest) = some v := by
  unfold grab11
  have htake : (v ++ rest).take 11 = v := by
    rw [← hv, List.take_left]
  rw [htake, if_pos (by simp [hv, hid])]

/-- C10: for every URL in which an occurrence of `v=` or of `/` is
immediately followed by 11 characters of `[0-9A-Za-z_-]`, and no earlier
position matches the first pattern, `_extract_video_id` returns exactly
those 11 characters via the first pattern `(?:v=|\/)([0-9A-Za-z_-]{11}).*`
— regardless of the URL's host or scheme — and consequently
`download_audio`'s invalid-URL branch is not taken for any such input. -/
theorem c10_extract_first_pattern (url : String) (pre lit v rest : List Char)
    (hurl : url.data = pre ++ lit ++ v ++ rest)
    (hlit : lit = ['v', '='] ∨ lit = ['/'])
    (hv : v.length = 11) (hid : v.all isIdChar = true)
    (hfirst : ∀ j, j < pre.length → pat1At (url.data.drop j) = none) :
    extract_video_id url = some (String.mk v) ∧
    download_audio_check url = .ok (String.mk v) := by
  have hat : pat1At (lit ++ v ++ rest) = some v := by
    rcases hlit with h | h <;> subst h
    · show pat1At ('v' :: '=' :: (v ++ rest)) = some v
      rw [pat1At]
      exact grab11_full v rest hv hid
    · show pat1At ('/' :: (v ++ rest)) = some v
      rw [pat1At]
      exact grab11_full v rest hv hid
  have hurl' : url.data = pre ++ (lit ++ v ++ rest) := by
    rw [hurl]
    simp [List.append_assoc]
  have hsearch : searchPat1 url.data = some v := by
    rw [hurl']
    rw [searchPat1_skip (lit ++ v ++ rest) pre (fun j hj => by
      rw [← hurl']
      exact hfirst j hj)]
    have hne : lit ++ v ++ rest ≠ [] := by
      rcases hlit with h | h <;> subst h <;> simp
    cases hcons : lit ++ v ++ rest with
    | nil => exact absurd hcons hne
    | cons c cs =>
      rw [searchPat1, ← hcons, hat]
  have hext : extract_video_id url = some (String.mk v) := by
    unfold extract_video_id
    rw [hsearch]
  refine ⟨hext, ?_⟩
  have hnemp : String.mk v ≠ "" := by
    intro hemp
    have hdata : v = "".data := congrArg String.data hemp
    rw [hdata] at hv
    simp at hv
  unfold download_audio_check
  rw [hext]
  show (if String.mk v = "" then Except.error ("Invalid YouTube URL: " ++ url)
    else Except.ok (String.mk v)) = Except.ok (String.mk v)
  rw [if_neg hnemp]

/-- C10 (witness): the theorem evaluated on a URL whose host is not
YouTube at all: `https://example.com/abcdefghijk` yields the id
`abcdefghijk` and passes the invalid-URL check. -/
theorem c10_witness :
    extract_video_id "https://example.com/abcdefghijk" = some (String.mk "abcdefghijk".data) ∧
    download_audio_check "https://example.com/abcdefghijk" =
      .ok (String.mk "abcdefghijk".data) :=
  c10_extract_first_pattern "https://example.com/abcdefghijk"
    "https://example.com".data ['/'] "abcdefghijk".data []
    (by rfl) (Or.inr rfl) (by rfl) (by rfl)
    (by
      intro j hj
      have hj19 : j < 19 := by simpa using hj
      interval_cases j <;> rfl)

/-! Lemmas for the timestamp formatter. -/

lemma digitChar_isDigit (m : Nat) (h : m < 10) : (Nat.digitChar m).isDigit = true := by
  interval_cases m <;> decide

lemma digitsAux_mem (fuel : Nat) : ∀ (n : Nat) (acc : List Char) (c : Char),
    c ∈ digitsAux fuel n acc → c.isDigit = true ∨ c ∈ acc := by
  induction fuel with
  | zero =>
    intro n acc c h
    cases n with
    | zero => exact Or.inr h
    | succ m => exact Or.inr h
  | succ fuel ih =>
    intro n acc c h
    cases n with
    | zero => exact Or.inr h
    | succ m =>
      rcases ih ((m + 1) / 10) (Nat.digitChar ((m + 1) % 10) :: acc) c h with hd | hmem
      · exact Or.inl hd
      · rcases List.mem_cons.mp hmem with he | ha
        · exact Or.inl (he ▸ digitChar_isDigit _ (Nat.mod_lt _ (by omega)))
        · exact Or.inr ha

lemma pyIntDigits_digit (n : Nat) (c : Char) (h : c ∈ (pyIntDigits n).data) :
    c.isDigit = true := by
  unfold pyIntDigits at h
  by_cases h0 : n = 0
  · rw [if_pos h0] at h
    have : c ∈ ['0'] := h
    simp at this
    rw [this]
    decide
  · rw [if_neg h0] at h
    rcases digitsAux_mem n n [] c h with hd | hmem
    · exact hd
    · simp at hmem

lemma replaceDot_append (a b : String) : replaceDot (a ++ b) = replaceDot a ++ replaceDot b := by
  unfold replaceDot
  rw [String.data_append, List.map_append]
  rfl

lemma replaceDot_of_digits (s : String) (h : ∀ c ∈ s.data, c.isDigit = true) :
    replaceDot s = s := by
  unfold replaceDot
  have hmap : s.data.map (fun c => if c = '.' then ',' else c) = s.data := by
    conv_rhs => rw [← List.map_id s.data]
    apply List.map_congr_left
    intro c hc
    have hd := h c hc
    have hne : c ≠ '.' := by
      intro he
      rw [he] at hd
      exact absurd hd (by decide)
    simp [hne]
  rw [hmap]

lemma replaceDot_zpad_pyIntDigits (w n : Nat) :
    replaceDot (zpad w (pyIntDigits n)) = zpad w (pyIntDigits n) := by
  apply replaceDot_of_digits
  intro c hc
  unfold zpad at hc
  rw [String.data_append] at hc
  rcases List.mem_append.mp hc with hrep | hdig
  · have : c = '0' := by
      have := List.eq_of_mem_replicate hrep
      exact this
    rw [this]
    decide
  · exact pyIntDigits_digit n c hdig

lemma replaceDot_colon : replaceDot ":" = ":" := rfl

lemma replaceDot_dot : replaceDot "." = "," := rfl

lemma rhe_eq_floor_or (x : ℚ) : rhe x = x.floor ∨ rhe x = x.floor + 1 := by
  unfold rhe
  split_ifs <;> simp

lemma rhe_nonneg (x : ℚ) (h : 0 ≤ x) : 0 ≤ rhe x := by
  have h0 : (0 : ℤ) ≤ x.floor := by
    rw [ratFloor_eq]
    exact Int.le_floor.mpr (by exact_mod_cast h)
  rcases rhe_eq_floor_or x with he | he <;> omega

lemma rhe_le_of_lt (x : ℚ) (b : ℤ) (h : x < (b : ℚ)) : rhe x ≤ b := by
  have hf : x.floor < b := by
    rw [ratFloor_eq]
    exact Int.floor_lt.mpr h
  rcases rhe_eq_floor_or x with he | he <;> omega

lemma minutes_eq (s : ℚ) : ⌊(pymod s 3600) / 60⌋ = ⌊s / 60⌋ % 60 := by
  have h1 : (pymod s 3600) / 60 = s / 60 - ((60 * ⌊s / 3600⌋ : ℤ) : ℚ) := by
    unfold pymod
    rw [ratFloor_eq]
    push_cast
    field_simp
    ring
  rw [h1, Int.floor_sub_int]
  have h2 : ((⌊s / 3600⌋ : ℤ) : ℚ) ≤ s / 3600 := Int.floor_le _
  have h3 : s / 3600 < (⌊s / 3600⌋ : ℚ) + 1 := Int.lt_floor_add_one _
  have key : s / 60 = 60 * (s / 3600) := by
    field_simp
    ring
  have hb1 : 60 * ⌊s / 3600⌋ ≤ ⌊s / 60⌋ := by
    apply Int.le_floor.mpr
    push_cast
    rw [key]
    linarith
  have hb2 : ⌊s / 60⌋ < 60 * ⌊s / 3600⌋ + 60 := by
    apply Int.floor_lt.mpr
    push_cast
    rw [key]
    linarith
  omega

/-- C6: for every non-negative seconds value (modelled as an exact
rational) and either style flag, `_format_timestamp` returns
`HH:MM:SS.mmm` (WebVTT) or `HH:MM:SS,mmm` (SRT, comma separator) where the
hours field is the floor division `⌊s/3600⌋` zero-padded to 2 digits with
no wraparound at 24 (no modulus is applied to it), the minutes field is
`⌊s/60⌋ mod 60` zero-padded to 2 digits and always below 60, and the
seconds field is the fractional remainder `s - 60·⌊s/60⌋` correctly
rounded to 3 decimals (ties to even, as Python's fixed-point formatting
rounds the exact value), rendered as 2 integer digits, the separator and 3
fractional digits (the rounded millisecond count never exceeds 60000, so
its integer part fits 2 digits). -/
theorem c6_format_timestamp_shape (s : ℚ) (srt : Bool) (hs : 0 ≤ s) :
    format_timestamp s srt =
      zpad 2 (pyIntDigits (⌊s / 3600⌋).toNat) ++ ":" ++
      zpad 2 (pyIntDigits ((⌊s / 60⌋).toNat % 60)) ++ ":" ++
      (zpad 2 (pyIntDigits ((rhe ((s - 60 * ((⌊s / 60⌋ : ℤ) : ℚ)) * 1000)).toNat / 1000)) ++
        (if srt then "," else ".") ++
        zpad 3 (pyIntDigits ((rhe ((s - 60 * ((⌊s / 60⌋ : ℤ) : ℚ)) * 1000)).toNat % 1000))) ∧
    (⌊s / 60⌋).toNat % 60 < 60 ∧
    (rhe ((s - 60 * ((⌊s / 60⌋ : ℤ) : ℚ)) * 1000)).toNat ≤ 60000 := by
  have hq60 : (0 : ℤ) ≤ ⌊s / 60⌋ :=
    Int.le_floor.mpr (by exact_mod_cast div_nonneg hs (by norm_num))
  have hq3600 : (0 : ℤ) ≤ ⌊s / 3600⌋ :=
    Int.le_floor.mpr (by exact_mod_cast div_nonneg hs (by norm_num))
  have hfl : ((⌊s / 60⌋ : ℤ) : ℚ) ≤ s / 60 := Int.floor_le _
  have hfu : s / 60 < (⌊s / 60⌋ : ℚ) + 1 := Int.lt_floor_add_one _
  have hs60 : 60 * (s / 60) = s := by field_simp
  have hm0 : (0 : ℚ) ≤ s - 60 * ((⌊s / 60⌋ : ℤ) : ℚ) := by linarith
  have hm60 : s - 60 * ((⌊s / 60⌋ : ℤ) : ℚ) < 60 := by linarith
  have hrge : 0 ≤ rhe ((s - 60 * ((⌊s / 60⌋ : ℤ) : ℚ)) * 1000) :=
    rhe_nonneg _ (by positivity)
  have hrle : rhe ((s - 60 * ((⌊s / 60⌋ : ℤ) : ℚ)) * 1000) ≤ 60000 := by
    apply rhe_le_of_lt
    push_cast
    linarith
  have e1 : (s / 3600).floor = ⌊s / 3600⌋ := ratFloor_eq _
  have e2 : ((pymod s 3600) / 60).floor = ⌊s / 60⌋ % 60 := by
    rw [ratFloor_eq]
    exact minutes_eq s
  have e2n : ((pymod s 3600) / 60).floor.toNat = (⌊s / 60⌋).toNat % 60 := by
    rw [e2]
    omega
  have e3 : pymod s 60 = s - 60 * ((⌊s / 60⌋ : ℤ) : ℚ) := by
    unfold pymod
    rw [ratFloor_eq]
  have e4 : rhe (pymod s 60 * 1000) = rhe ((s - 60 * ((⌊s / 60⌋ : ℤ) : ℚ)) * 1000) := by
    rw [e3]
  have e5 : (rhe (pymod s 60 * 1000) / 1000).toNat =
      (rhe ((s - 60 * ((⌊s / 60⌋ : ℤ) : ℚ)) * 1000)).toNat / 1000 := by
    rw [e4]
    omega
  have e6 : (rhe (pymod s 60 * 1000) % 1000).toNat =
      (rhe ((s - 60 * ((⌊s / 60⌋ : ℤ) : ℚ)) * 1000)).toNat % 1000 := by
    rw [e4]
    omega
  have hB : zpad 2 (pyIntDigits (s / 3600).floor.toNat) ++ ":" ++
      zpad 2 (pyIntDigits ((pymod s 3600) / 60).floor.toNat) ++ ":" ++
      pyFmt063 (pymod s 60) =
      zpad 2 (pyIntDigits (⌊s / 3600⌋).toNat) ++ ":" ++
      zpad 2 (pyIntDigits ((⌊s / 60⌋).toNat % 60)) ++ ":" ++
      (zpad 2 (pyIntDigits ((rhe ((s - 60 * ((⌊s / 60⌋ : ℤ) : ℚ)) * 1000)).toNat / 1000)) ++
        "." ++
        zpad 3 (pyIntDigits ((rhe ((s - 60 * ((⌊s / 60⌋ : ℤ) : ℚ)) * 1000)).toNat % 1000))) := by
    show zpad 2 (pyIntDigits (s / 3600).floor.toNat) ++ ":" ++
        zpad 2 (pyIntDigits ((pymod s 3600) / 60).floor.toNat) ++ ":" ++
        (zpad 2 (pyIntDigits ((rhe (pymod s 60 * 1000)) / 1000).toNat) ++ "." ++
          zpad 3 (pyIntDigits ((rhe (pymod s 60 * 1000)) % 1000).toNat)) = _
    rw [e1, e2n, e5, e6]
  refine ⟨?_, by omega, by omega⟩
  cases srt with
  | false => exact hB
  | true =>
    show replaceDot (zpad 2 (pyIntDigits (s / 3600).floor.toNat) ++ ":" ++
      zpad 2 (pyIntDigits ((pymod s 3600) / 60).floor.toNat) ++ ":" ++
      pyFmt063 (pymod s 60)) = _
    rw [hB]
    simp [replaceDot_append, replaceDot_zpad_pyIntDigits, replaceDot_colon, replaceDot_dot]

/-- C6 (witness): the theorem evaluated at 3725.5 seconds (1 h 2 min 5.5 s)
in SRT style. -/
theorem c6_witness :
    (0 : ℚ) ≤ 7451 / 2 ∧
    (format_timestamp (7451 / 2) true =
      zpad 2 (pyIntDigits (⌊(7451 / 2 : ℚ) / 3600⌋).toNat) ++ ":" ++
      zpad 2 (pyIntDigits ((⌊(7451 / 2 : ℚ) / 60⌋).toNat % 60)) ++ ":" ++
      (zpad 2 (pyIntDigits
        ((rhe ((7451 / 2 - 60 * ((⌊(7451 / 2 : ℚ) / 60⌋ : ℤ) : ℚ)) * 1000)).toNat / 1000)) ++
        (if true then "," else ".") ++
        zpad 3 (pyIntDigits
        ((rhe ((7451 / 2 - 60 * ((⌊(7451 / 2 : ℚ) / 60⌋ : ℤ) : ℚ)) * 1000)).toNat % 1000))) ∧
    (⌊(7451 / 2 : ℚ) / 60⌋).toNat % 60 < 60 ∧
    (rhe ((7451 / 2 - 60 * ((⌊(7451 / 2 : ℚ) / 60⌋ : ℤ) : ℚ)) * 1000)).toNat ≤ 60000) :=
  ⟨by norm_num, c6_format_timestamp_shape (7451 / 2) true (by norm_num)⟩
